import Mathlib

set_option maxRecDepth 4096

/-!
Verification development for the mySahara health backend.

Shallow embedding of the pure helper logic of the backend:
`_determine_risk_level` and `_extract_risk_factors` (src/api/health.py),
`AIService._detect_language`, `AIService._get_system_prompt` and
`AIService.chat` (src/services/ai_service.py), the document parsers of
`OCRService` (src/services/ocr_service.py) and
`_extract_recommendations` (src/api/family_insights.py),
together with theorems settling the specification claims about them.
-/

namespace MySahara

/-! ## Python string primitives -/

/-- Substring containment on character lists: Python `needle in haystack`.
The empty needle is contained in everything, as in Python. -/
def containsSub (needle : List Char) : List Char → Bool
  | [] => needle.isPrefixOf []
  | c :: t => needle.isPrefixOf (c :: t) || containsSub needle t

/-- Python `needle in haystack` for strings. -/
def pyContains (haystack needle : String) : Bool :=
  containsSub needle.data haystack.data

/-- Python `str.lower()`.  All strings the code lowers are ASCII or Bengali;
on those, per-character `Char.toLower` agrees with Python. -/
def pyLower (s : String) : String := ⟨s.data.map Char.toLower⟩

/-- Code-point ranges of the characters Python's `str.strip()`,
`str.isspace()` and the regex class `\s` treat as whitespace (the two sets
coincide), taken verbatim from CPython's Unicode tables. -/
def pyWhitespaceRanges : List (Nat × Nat) :=
  [   (0x9, 0xD), (0x1C, 0x20), (0x85, 0x85), (0xA0, 0xA0), (0x1680, 0x1680), (0x2000, 0x200A),
   (0x2028, 0x2029), (0x202F, 0x202F), (0x205F, 0x205F), (0x3000, 0x3000)]

/-- Whitespace test of Python `str.strip()` and of the regex class `\s`. -/
def isPyWhitespace (c : Char) : Bool :=
  pyWhitespaceRanges.any fun r => r.1 ≤ c.toNat && c.toNat ≤ r.2

/-- Python `str.strip()` with no argument: drop whitespace at both ends. -/
def pyStrip (s : String) : String :=
  ⟨((s.data.dropWhile isPyWhitespace).reverse.dropWhile isPyWhitespace).reverse⟩

/-- Split a character list at every occurrence of `sep`, keeping empty
pieces, as Python `str.split` with an explicit one-character separator. -/
def pySplitCharList (sep : Char) : List Char → List (List Char)
  | [] => [[]]
  | c :: t =>
    match pySplitCharList sep t with
    | [] => [[]]
    | h :: r => if c = sep then [] :: h :: r else (c :: h) :: r

/-- Python `text.split('\n')`. -/
def pySplitLines (text : String) : List String :=
  (pySplitCharList '\n' text.data).map fun l => (⟨l⟩ : String)

/-- Code-point ranges of the characters for which Python `str.isdigit()`
holds (Unicode decimal digits plus the superscript and other
numeric-type-digit characters), taken verbatim from CPython's Unicode
tables. -/
def pyDigitRanges : List (Nat × Nat) :=
  [(0x30, 0x39), (0xB2, 0xB3), (0xB9, 0xB9), (0x660, 0x669), (0x6F0, 0x6F9), (0x7C0, 0x7C9), (0x966, 0x96F), (0x9E6, 0x9EF), (0xA66, 0xA6F), (0xAE6, 0xAEF), (0xB66, 0xB6F), (0xBE6, 0xBEF), (0xC66, 0xC6F), (0xCE6, 0xCEF), (0xD66, 0xD6F), (0xDE6, 0xDEF), (0xE50, 0xE59), (0xED0, 0xED9), (0xF20, 0xF29), (0x1040, 0x1049), (0x1090, 0x1099), (0x1369, 0x1371), (0x17E0, 0x17E9), (0x1810, 0x1819), (0x1946, 0x194F), (0x19D0, 0x19DA), (0x1A80, 0x1A89), (0x1A90, 0x1A99), (0x1B50, 0x1B59), (0x1BB0, 0x1BB9), (0x1C40, 0x1C49), (0x1C50, 0x1C59), (0x2070, 0x2070), (0x2074, 0x2079), (0x2080, 0x2089), (0x2460, 0x2468), (0x2474, 0x247C), (0x2488, 0x2490), (0x24EA, 0x24EA), (0x24F5, 0x24FD), (0x24FF, 0x24FF), (0x2776, 0x277E), (0x2780, 0x2788), (0x278A, 0x2792), (0xA620, 0xA629), (0xA8D0, 0xA8D9), (0xA900, 0xA909), (0xA9D0, 0xA9D9), (0xA9F0, 0xA9F9), (0xAA50, 0xAA59), (0xABF0, 0xABF9), (0xFF10, 0xFF19), (0x104A0, 0x104A9), (0x10A40, 0x10A43), (0x10D30, 0x10D39), (0x10E60, 0x10E68), (0x11052, 0x1105A), (0x11066, 0x1106F), (0x110F0, 0x110F9), (0x11136, 0x1113F), (0x111D0, 0x111D9), (0x112F0, 0x112F9), (0x11450, 0x11459), (0x114D0, 0x114D9), (0x11650, 0x11659), (0x116C0, 0x116C9), (0x11730, 0x11739), (0x118E0, 0x118E9), (0x11950, 0x11959), (0x11C50, 0x11C59), (0x11D50, 0x11D59), (0x11DA0, 0x11DA9), (0x16A60, 0x16A69), (0x16AC0, 0x16AC9), (0x16B50, 0x16B59), (0x1D7CE, 0x1D7FF), (0x1E140, 0x1E149), (0x1E2F0, 0x1E2F9), (0x1E950, 0x1E959), (0x1F100, 0x1F10A), (0x1FBF0, 0x1FBF9)]

/-- Python `ch.isdigit()` for a single character. -/
def pyIsDigit (c : Char) : Bool :=
  pyDigitRanges.any fun r => r.1 ≤ c.toNat && c.toNat ≤ r.2

/-! ## C1 / C9: risk-level determination (`_determine_risk_level`, src/api/health.py) -/

/-- Fixed emergency keyword set of `_determine_risk_level`. -/
def emergency_symptoms : List String :=
  ["chest pain", "difficulty breathing", "severe bleeding",
   "loss of consciousness", "seizure", "stroke symptoms"]

/-- Embedding of `_determine_risk_level(symptoms, severity)`
(src/api/health.py lines 302-320).  `severity=None` is `none`.
The emergency test is Python `any(em in ' '.join(symptoms_lower) for em in ...)`. -/
def determine_risk_level (symptoms : List String) (severity : Option String) : String :=
  let symptoms_lower := symptoms.map pyLower
  if emergency_symptoms.any (fun em => pyContains (String.intercalate " " symptoms_lower) em) then
    "high"
  else if severity = some "severe" then "high"
  else if severity = some "moderate" ∨ symptoms.length > 3 then "medium"
  else "low"

/-- Risk level as claim C1 phrases it: high on emergency match or severe hint,
else medium on moderate hint or more than 3 symptoms, else low, in that
priority order. -/
def risk_level_claim (symptoms : List String) (severity : Option String) : String :=
  let joined := String.intercalate " " (symptoms.map pyLower)
  if (emergency_symptoms.any fun em => pyContains joined em) ∨ severity = some "severe" then
    "high"
  else if severity = some "moderate" ∨ symptoms.length > 3 then "medium"
  else "low"

/-! ## C3: language detection (`AIService._detect_language`, src/services/ai_service.py) -/

/-- Membership test of the Bengali Unicode block, Python
`'ঀ' <= char <= '৿'`. -/
def isBengaliChar (c : Char) : Bool :=
  0x0980 ≤ c.toNat && c.toNat ≤ 0x09FF

/-- Embedding of `AIService._detect_language(text)` (src/services/ai_service.py
lines 102-118).  `total_chars` is the length after
`text.replace(' ', '').replace('\n', '')`, so tabs and carriage returns are
counted.  The float comparison `bengali_chars / total_chars > 0.2` is modelled
exactly as the rational inequality `5 * bengali_chars > total_chars`. -/
def detect_language (text : String) : String :=
  let bengali_chars := (text.data.filter isBengaliChar).length
  let total_chars := ((text.data.filter (fun c => c ≠ ' ')).filter (fun c => c ≠ '\n')).length
  if 0 < total_chars ∧ 5 * bengali_chars > total_chars then "bn" else "en"

/-- Language detection as claim C3 phrases it: the denominator is the number
of non-whitespace characters of the input. -/
def detect_language_claim (text : String) : String :=
  let bengali := text.data.countP (fun c => isBengaliChar c)
  let nonws := text.data.countP (fun c => !isPyWhitespace c)
  if 0 < nonws ∧ 5 * bengali > nonws then "bn" else "en"

/-- Language detection as amended: the denominator counts every character
other than a space or a newline, so tabs and carriage returns land in the
denominator even though they are whitespace. -/
def detect_language_amended (text : String) : String :=
  let bengali := text.data.countP (fun c => isBengaliChar c)
  let denom := text.data.countP (fun c => c ≠ ' ' && c ≠ '\n')
  if 0 < denom ∧ 5 * bengali > denom then "bn" else "en"

/-! ## Regex fragments

The prescription parser of `OCRService` uses `re.search` with a handful of
fixed patterns under `re.IGNORECASE`.  Each pattern is embedded as a matcher
built from the fragments below.  A matcher consumes a prefix of the input and
returns the consumed characters (in their original case, as `match.group`
does) and the rest.  Alternations are tried in pattern order.  Greedy
character-class repetition without backtracking is used only where the
element after the repetition is disjoint from the repeated class, where it
coincides with full backtracking; the two places where Python's engine does
give characters back — the `\s+` before the doctor capture and the second
`\s*` of the label patterns, both followed by a capture class overlapping
`\s` — model the give-back explicitly in their matchers. -/

/-- Result of matching a regex fragment at the head of the input. -/
abbrev MatchResult := Option (List Char × List Char)

/-- ASCII letter, the class `[A-Za-z]`. -/
def isAsciiLetter (c : Char) : Bool :=
  ('a' ≤ c && c ≤ 'z') || ('A' ≤ c && c ≤ 'Z')

/-- The classes `[a-z]` and `[A-Za-z]` under `re.IGNORECASE` with full
Unicode case folding: the ASCII letters plus the four characters whose
folding lands in a-z (U+0130, U+0131, U+017F, U+212A). -/
def reLetterCI (c : Char) : Bool :=
  isAsciiLetter c || c.toNat = 0x130 || c.toNat = 0x131 || c.toNat = 0x17F || c.toNat = 0x212A

/-- Code-point ranges of the Unicode decimal digits (category Nd), which is
exactly what the regex class `\d` matches on Python strings and what
`int()` accepts as digits; every range is a zero-aligned run of
consecutive digit values. -/
def reDigitRanges : List (Nat × Nat) :=
  [   (0x30, 0x39), (0x660, 0x669), (0x6F0, 0x6F9), (0x7C0, 0x7C9), (0x966, 0x96F), (0x9E6, 0x9EF),
   (0xA66, 0xA6F), (0xAE6, 0xAEF), (0xB66, 0xB6F), (0xBE6, 0xBEF), (0xC66, 0xC6F), (0xCE6, 0xCEF),
   (0xD66, 0xD6F), (0xDE6, 0xDEF), (0xE50, 0xE59), (0xED0, 0xED9), (0xF20, 0xF29), (0x1040, 0x1049),
   (0x1090, 0x1099), (0x17E0, 0x17E9), (0x1810, 0x1819), (0x1946, 0x194F), (0x19D0, 0x19D9), (0x1A80, 0x1A89),
   (0x1A90, 0x1A99), (0x1B50, 0x1B59), (0x1BB0, 0x1BB9), (0x1C40, 0x1C49), (0x1C50, 0x1C59), (0xA620, 0xA629),
   (0xA8D0, 0xA8D9), (0xA900, 0xA909), (0xA9D0, 0xA9D9), (0xA9F0, 0xA9F9), (0xAA50, 0xAA59), (0xABF0, 0xABF9),
   (0xFF10, 0xFF19), (0x104A0, 0x104A9), (0x10D30, 0x10D39), (0x11066, 0x1106F), (0x110F0, 0x110F9), (0x11136, 0x1113F),
   (0x111D0, 0x111D9), (0x112F0, 0x112F9), (0x11450, 0x11459), (0x114D0, 0x114D9), (0x11650, 0x11659), (0x116C0, 0x116C9),
   (0x11730, 0x11739), (0x118E0, 0x118E9), (0x11950, 0x11959), (0x11C50, 0x11C59), (0x11D50, 0x11D59), (0x11DA0, 0x11DA9),
   (0x16A60, 0x16A69), (0x16AC0, 0x16AC9), (0x16B50, 0x16B59), (0x1D7CE, 0x1D7FF), (0x1E140, 0x1E149), (0x1E2F0, 0x1E2F9),
   (0x1E950, 0x1E959), (0x1FBF0, 0x1FBF9)]

/-- The regex class `\d`: any Unicode decimal digit. -/
def reDigit (c : Char) : Bool :=
  reDigitRanges.any fun r => r.1 ≤ c.toNat && c.toNat ≤ r.2

/-- Code-point ranges of the characters the regex class `\w` matches on
Python strings (Unicode letters, digits and marks, plus the underscore),
taken verbatim from CPython's tables; `\b` is a boundary of this class. -/
def reWordRanges : List (Nat × Nat) :=
  [   (0x30, 0x39), (0x41, 0x5A), (0x5F, 0x5F), (0x61, 0x7A), (0xAA, 0xAA), (0xB2, 0xB3),
   (0xB5, 0xB5), (0xB9, 0xBA), (0xBC, 0xBE), (0xC0, 0xD6), (0xD8, 0xF6), (0xF8, 0x2C1),
   (0x2C6, 0x2D1), (0x2E0, 0x2E4), (0x2EC, 0x2EC), (0x2EE, 0x2EE), (0x370, 0x374), (0x376, 0x377),
   (0x37A, 0x37D), (0x37F, 0x37F), (0x386, 0x386), (0x388, 0x38A), (0x38C, 0x38C), (0x38E, 0x3A1),
   (0x3A3, 0x3F5), (0x3F7, 0x481), (0x48A, 0x52F), (0x531, 0x556), (0x559, 0x559), (0x560, 0x588),
   (0x5D0, 0x5EA), (0x5EF, 0x5F2), (0x620, 0x64A), (0x660, 0x669), (0x66E, 0x66F), (0x671, 0x6D3),
   (0x6D5, 0x6D5), (0x6E5, 0x6E6), (0x6EE, 0x6FC), (0x6FF, 0x6FF), (0x710, 0x710), (0x712, 0x72F),
   (0x74D, 0x7A5), (0x7B1, 0x7B1), (0x7C0, 0x7EA), (0x7F4, 0x7F5), (0x7FA, 0x7FA), (0x800, 0x815),
   (0x81A, 0x81A), (0x824, 0x824), (0x828, 0x828), (0x840, 0x858), (0x860, 0x86A), (0x870, 0x887),
   (0x889, 0x88E), (0x8A0, 0x8C9), (0x904, 0x939), (0x93D, 0x93D), (0x950, 0x950), (0x958, 0x961),
   (0x966, 0x96F), (0x971, 0x980), (0x985, 0x98C), (0x98F, 0x990), (0x993, 0x9A8), (0x9AA, 0x9B0),
   (0x9B2, 0x9B2), (0x9B6, 0x9B9), (0x9BD, 0x9BD), (0x9CE, 0x9CE), (0x9DC, 0x9DD), (0x9DF, 0x9E1),
   (0x9E6, 0x9F1), (0x9F4, 0x9F9), (0x9FC, 0x9FC), (0xA05, 0xA0A), (0xA0F, 0xA10), (0xA13, 0xA28),
   (0xA2A, 0xA30), (0xA32, 0xA33), (0xA35, 0xA36), (0xA38, 0xA39), (0xA59, 0xA5C), (0xA5E, 0xA5E),
   (0xA66, 0xA6F), (0xA72, 0xA74), (0xA85, 0xA8D), (0xA8F, 0xA91), (0xA93, 0xAA8), (0xAAA, 0xAB0),
   (0xAB2, 0xAB3), (0xAB5, 0xAB9), (0xABD, 0xABD), (0xAD0, 0xAD0), (0xAE0, 0xAE1), (0xAE6, 0xAEF),
   (0xAF9, 0xAF9), (0xB05, 0xB0C), (0xB0F, 0xB10), (0xB13, 0xB28), (0xB2A, 0xB30), (0xB32, 0xB33),
   (0xB35, 0xB39), (0xB3D, 0xB3D), (0xB5C, 0xB5D), (0xB5F, 0xB61), (0xB66, 0xB6F), (0xB71, 0xB77),
   (0xB83, 0xB83), (0xB85, 0xB8A), (0xB8E, 0xB90), (0xB92, 0xB95), (0xB99, 0xB9A), (0xB9C, 0xB9C),
   (0xB9E, 0xB9F), (0xBA3, 0xBA4), (0xBA8, 0xBAA), (0xBAE, 0xBB9), (0xBD0, 0xBD0), (0xBE6, 0xBF2),
   (0xC05, 0xC0C), (0xC0E, 0xC10), (0xC12, 0xC28), (0xC2A, 0xC39), (0xC3D, 0xC3D), (0xC58, 0xC5A),
   (0xC5D, 0xC5D), (0xC60, 0xC61), (0xC66, 0xC6F), (0xC78, 0xC7E), (0xC80, 0xC80), (0xC85, 0xC8C),
   (0xC8E, 0xC90), (0xC92, 0xCA8), (0xCAA, 0xCB3), (0xCB5, 0xCB9), (0xCBD, 0xCBD), (0xCDD, 0xCDE),
   (0xCE0, 0xCE1), (0xCE6, 0xCEF), (0xCF1, 0xCF2), (0xD04, 0xD0C), (0xD0E, 0xD10), (0xD12, 0xD3A),
   (0xD3D, 0xD3D), (0xD4E, 0xD4E), (0xD54, 0xD56), (0xD58, 0xD61), (0xD66, 0xD78), (0xD7A, 0xD7F),
   (0xD85, 0xD96), (0xD9A, 0xDB1), (0xDB3, 0xDBB), (0xDBD, 0xDBD), (0xDC0, 0xDC6), (0xDE6, 0xDEF),
   (0xE01, 0xE30), (0xE32, 0xE33), (0xE40, 0xE46), (0xE50, 0xE59), (0xE81, 0xE82), (0xE84, 0xE84),
   (0xE86, 0xE8A), (0xE8C, 0xEA3), (0xEA5, 0xEA5), (0xEA7, 0xEB0), (0xEB2, 0xEB3), (0xEBD, 0xEBD),
   (0xEC0, 0xEC4), (0xEC6, 0xEC6), (0xED0, 0xED9), (0xEDC, 0xEDF), (0xF00, 0xF00), (0xF20, 0xF33),
   (0xF40, 0xF47), (0xF49, 0xF6C), (0xF88, 0xF8C), (0x1000, 0x102A), (0x103F, 0x1049), (0x1050, 0x1055),
   (0x105A, 0x105D), (0x1061, 0x1061), (0x1065, 0x1066), (0x106E, 0x1070), (0x1075, 0x1081), (0x108E, 0x108E),
   (0x1090, 0x1099), (0x10A0, 0x10C5), (0x10C7, 0x10C7), (0x10CD, 0x10CD), (0x10D0, 0x10FA), (0x10FC, 0x1248),
   (0x124A, 0x124D), (0x1250, 0x1256), (0x1258, 0x1258), (0x125A, 0x125D), (0x1260, 0x1288), (0x128A, 0x128D),
   (0x1290, 0x12B0), (0x12B2, 0x12B5), (0x12B8, 0x12BE), (0x12C0, 0x12C0), (0x12C2, 0x12C5), (0x12C8, 0x12D6),
   (0x12D8, 0x1310), (0x1312, 0x1315), (0x1318, 0x135A), (0x1369, 0x137C), (0x1380, 0x138F), (0x13A0, 0x13F5),
   (0x13F8, 0x13FD), (0x1401, 0x166C), (0x166F, 0x167F), (0x1681, 0x169A), (0x16A0, 0x16EA), (0x16EE, 0x16F8),
   (0x1700, 0x1711), (0x171F, 0x1731), (0x1740, 0x1751), (0x1760, 0x176C), (0x176E, 0x1770), (0x1780, 0x17B3),
   (0x17D7, 0x17D7), (0x17DC, 0x17DC), (0x17E0, 0x17E9), (0x17F0, 0x17F9), (0x1810, 0x1819), (0x1820, 0x1878),
   (0x1880, 0x1884), (0x1887, 0x18A8), (0x18AA, 0x18AA), (0x18B0, 0x18F5), (0x1900, 0x191E), (0x1946, 0x196D),
   (0x1970, 0x1974), (0x1980, 0x19AB), (0x19B0, 0x19C9), (0x19D0, 0x19DA), (0x1A00, 0x1A16), (0x1A20, 0x1A54),
   (0x1A80, 0x1A89), (0x1A90, 0x1A99), (0x1AA7, 0x1AA7), (0x1B05, 0x1B33), (0x1B45, 0x1B4C), (0x1B50, 0x1B59),
   (0x1B83, 0x1BA0), (0x1BAE, 0x1BE5), (0x1C00, 0x1C23), (0x1C40, 0x1C49), (0x1C4D, 0x1C7D), (0x1C80, 0x1C88),
   (0x1C90, 0x1CBA), (0x1CBD, 0x1CBF), (0x1CE9, 0x1CEC), (0x1CEE, 0x1CF3), (0x1CF5, 0x1CF6), (0x1CFA, 0x1CFA),
   (0x1D00, 0x1DBF), (0x1E00, 0x1F15), (0x1F18, 0x1F1D), (0x1F20, 0x1F45), (0x1F48, 0x1F4D), (0x1F50, 0x1F57),
   (0x1F59, 0x1F59), (0x1F5B, 0x1F5B), (0x1F5D, 0x1F5D), (0x1F5F, 0x1F7D), (0x1F80, 0x1FB4), (0x1FB6, 0x1FBC),
   (0x1FBE, 0x1FBE), (0x1FC2, 0x1FC4), (0x1FC6, 0x1FCC), (0x1FD0, 0x1FD3), (0x1FD6, 0x1FDB), (0x1FE0, 0x1FEC),
   (0x1FF2, 0x1FF4), (0x1FF6, 0x1FFC), (0x2070, 0x2071), (0x2074, 0x2079), (0x207F, 0x2089), (0x2090, 0x209C),
   (0x2102, 0x2102), (0x2107, 0x2107), (0x210A, 0x2113), (0x2115, 0x2115), (0x2119, 0x211D), (0x2124, 0x2124),
   (0x2126, 0x2126), (0x2128, 0x2128), (0x212A, 0x212D), (0x212F, 0x2139), (0x213C, 0x213F), (0x2145, 0x2149),
   (0x214E, 0x214E), (0x2150, 0x2189), (0x2460, 0x249B), (0x24EA, 0x24FF), (0x2776, 0x2793), (0x2C00, 0x2CE4),
   (0x2CEB, 0x2CEE), (0x2CF2, 0x2CF3), (0x2CFD, 0x2CFD), (0x2D00, 0x2D25), (0x2D27, 0x2D27), (0x2D2D, 0x2D2D),
   (0x2D30, 0x2D67), (0x2D6F, 0x2D6F), (0x2D80, 0x2D96), (0x2DA0, 0x2DA6), (0x2DA8, 0x2DAE), (0x2DB0, 0x2DB6),
   (0x2DB8, 0x2DBE), (0x2DC0, 0x2DC6), (0x2DC8, 0x2DCE), (0x2DD0, 0x2DD6), (0x2DD8, 0x2DDE), (0x2E2F, 0x2E2F),
   (0x3005, 0x3007), (0x3021, 0x3029), (0x3031, 0x3035), (0x3038, 0x303C), (0x3041, 0x3096), (0x309D, 0x309F),
   (0x30A1, 0x30FA), (0x30FC, 0x30FF), (0x3105, 0x312F), (0x3131, 0x318E), (0x3192, 0x3195), (0x31A0, 0x31BF),
   (0x31F0, 0x31FF), (0x3220, 0x3229), (0x3248, 0x324F), (0x3251, 0x325F), (0x3280, 0x3289), (0x32B1, 0x32BF),
   (0x3400, 0x4DBF), (0x4E00, 0xA48C), (0xA4D0, 0xA4FD), (0xA500, 0xA60C), (0xA610, 0xA62B), (0xA640, 0xA66E),
   (0xA67F, 0xA69D), (0xA6A0, 0xA6EF), (0xA717, 0xA71F), (0xA722, 0xA788), (0xA78B, 0xA7CA), (0xA7D0, 0xA7D1),
   (0xA7D3, 0xA7D3), (0xA7D5, 0xA7D9), (0xA7F2, 0xA801), (0xA803, 0xA805), (0xA807, 0xA80A), (0xA80C, 0xA822),
   (0xA830, 0xA835), (0xA840, 0xA873), (0xA882, 0xA8B3), (0xA8D0, 0xA8D9), (0xA8F2, 0xA8F7), (0xA8FB, 0xA8FB),
   (0xA8FD, 0xA8FE), (0xA900, 0xA925), (0xA930, 0xA946), (0xA960, 0xA97C), (0xA984, 0xA9B2), (0xA9CF, 0xA9D9),
   (0xA9E0, 0xA9E4), (0xA9E6, 0xA9FE), (0xAA00, 0xAA28), (0xAA40, 0xAA42), (0xAA44, 0xAA4B), (0xAA50, 0xAA59),
   (0xAA60, 0xAA76), (0xAA7A, 0xAA7A), (0xAA7E, 0xAAAF), (0xAAB1, 0xAAB1), (0xAAB5, 0xAAB6), (0xAAB9, 0xAABD),
   (0xAAC0, 0xAAC0), (0xAAC2, 0xAAC2), (0xAADB, 0xAADD), (0xAAE0, 0xAAEA), (0xAAF2, 0xAAF4), (0xAB01, 0xAB06),
   (0xAB09, 0xAB0E), (0xAB11, 0xAB16), (0xAB20, 0xAB26), (0xAB28, 0xAB2E), (0xAB30, 0xAB5A), (0xAB5C, 0xAB69),
   (0xAB70, 0xABE2), (0xABF0, 0xABF9), (0xAC00, 0xD7A3), (0xD7B0, 0xD7C6), (0xD7CB, 0xD7FB), (0xF900, 0xFA6D),
   (0xFA70, 0xFAD9), (0xFB00, 0xFB06), (0xFB13, 0xFB17), (0xFB1D, 0xFB1D), (0xFB1F, 0xFB28), (0xFB2A, 0xFB36),
   (0xFB38, 0xFB3C), (0xFB3E, 0xFB3E), (0xFB40, 0xFB41), (0xFB43, 0xFB44), (0xFB46, 0xFBB1), (0xFBD3, 0xFD3D),
   (0xFD50, 0xFD8F), (0xFD92, 0xFDC7), (0xFDF0, 0xFDFB), (0xFE70, 0xFE74), (0xFE76, 0xFEFC), (0xFF10, 0xFF19),
   (0xFF21, 0xFF3A), (0xFF41, 0xFF5A), (0xFF66, 0xFFBE), (0xFFC2, 0xFFC7), (0xFFCA, 0xFFCF), (0xFFD2, 0xFFD7),
   (0xFFDA, 0xFFDC), (0x10000, 0x1000B), (0x1000D, 0x10026), (0x10028, 0x1003A), (0x1003C, 0x1003D), (0x1003F, 0x1004D),
   (0x10050, 0x1005D), (0x10080, 0x100FA), (0x10107, 0x10133), (0x10140, 0x10178), (0x1018A, 0x1018B), (0x10280, 0x1029C),
   (0x102A0, 0x102D0), (0x102E1, 0x102FB), (0x10300, 0x10323), (0x1032D, 0x1034A), (0x10350, 0x10375), (0x10380, 0x1039D),
   (0x103A0, 0x103C3), (0x103C8, 0x103CF), (0x103D1, 0x103D5), (0x10400, 0x1049D), (0x104A0, 0x104A9), (0x104B0, 0x104D3),
   (0x104D8, 0x104FB), (0x10500, 0x10527), (0x10530, 0x10563), (0x10570, 0x1057A), (0x1057C, 0x1058A), (0x1058C, 0x10592),
   (0x10594, 0x10595), (0x10597, 0x105A1), (0x105A3, 0x105B1), (0x105B3, 0x105B9), (0x105BB, 0x105BC), (0x10600, 0x10736),
   (0x10740, 0x10755), (0x10760, 0x10767), (0x10780, 0x10785), (0x10787, 0x107B0), (0x107B2, 0x107BA), (0x10800, 0x10805),
   (0x10808, 0x10808), (0x1080A, 0x10835), (0x10837, 0x10838), (0x1083C, 0x1083C), (0x1083F, 0x10855), (0x10858, 0x10876),
   (0x10879, 0x1089E), (0x108A7, 0x108AF), (0x108E0, 0x108F2), (0x108F4, 0x108F5), (0x108FB, 0x1091B), (0x10920, 0x10939),
   (0x10980, 0x109B7), (0x109BC, 0x109CF), (0x109D2, 0x10A00), (0x10A10, 0x10A13), (0x10A15, 0x10A17), (0x10A19, 0x10A35),
   (0x10A40, 0x10A48), (0x10A60, 0x10A7E), (0x10A80, 0x10A9F), (0x10AC0, 0x10AC7), (0x10AC9, 0x10AE4), (0x10AEB, 0x10AEF),
   (0x10B00, 0x10B35), (0x10B40, 0x10B55), (0x10B58, 0x10B72), (0x10B78, 0x10B91), (0x10BA9, 0x10BAF), (0x10C00, 0x10C48),
   (0x10C80, 0x10CB2), (0x10CC0, 0x10CF2), (0x10CFA, 0x10D23), (0x10D30, 0x10D39), (0x10E60, 0x10E7E), (0x10E80, 0x10EA9),
   (0x10EB0, 0x10EB1), (0x10F00, 0x10F27), (0x10F30, 0x10F45), (0x10F51, 0x10F54), (0x10F70, 0x10F81), (0x10FB0, 0x10FCB),
   (0x10FE0, 0x10FF6), (0x11003, 0x11037), (0x11052, 0x1106F), (0x11071, 0x11072), (0x11075, 0x11075), (0x11083, 0x110AF),
   (0x110D0, 0x110E8), (0x110F0, 0x110F9), (0x11103, 0x11126), (0x11136, 0x1113F), (0x11144, 0x11144), (0x11147, 0x11147),
   (0x11150, 0x11172), (0x11176, 0x11176), (0x11183, 0x111B2), (0x111C1, 0x111C4), (0x111D0, 0x111DA), (0x111DC, 0x111DC),
   (0x111E1, 0x111F4), (0x11200, 0x11211), (0x11213, 0x1122B), (0x11280, 0x11286), (0x11288, 0x11288), (0x1128A, 0x1128D),
   (0x1128F, 0x1129D), (0x1129F, 0x112A8), (0x112B0, 0x112DE), (0x112F0, 0x112F9), (0x11305, 0x1130C), (0x1130F, 0x11310),
   (0x11313, 0x11328), (0x1132A, 0x11330), (0x11332, 0x11333), (0x11335, 0x11339), (0x1133D, 0x1133D), (0x11350, 0x11350),
   (0x1135D, 0x11361), (0x11400, 0x11434), (0x11447, 0x1144A), (0x11450, 0x11459), (0x1145F, 0x11461), (0x11480, 0x114AF),
   (0x114C4, 0x114C5), (0x114C7, 0x114C7), (0x114D0, 0x114D9), (0x11580, 0x115AE), (0x115D8, 0x115DB), (0x11600, 0x1162F),
   (0x11644, 0x11644), (0x11650, 0x11659), (0x11680, 0x116AA), (0x116B8, 0x116B8), (0x116C0, 0x116C9), (0x11700, 0x1171A),
   (0x11730, 0x1173B), (0x11740, 0x11746), (0x11800, 0x1182B), (0x118A0, 0x118F2), (0x118FF, 0x11906), (0x11909, 0x11909),
   (0x1190C, 0x11913), (0x11915, 0x11916), (0x11918, 0x1192F), (0x1193F, 0x1193F), (0x11941, 0x11941), (0x11950, 0x11959),
   (0x119A0, 0x119A7), (0x119AA, 0x119D0), (0x119E1, 0x119E1), (0x119E3, 0x119E3), (0x11A00, 0x11A00), (0x11A0B, 0x11A32),
   (0x11A3A, 0x11A3A), (0x11A50, 0x11A50), (0x11A5C, 0x11A89), (0x11A9D, 0x11A9D), (0x11AB0, 0x11AF8), (0x11C00, 0x11C08),
   (0x11C0A, 0x11C2E), (0x11C40, 0x11C40), (0x11C50, 0x11C6C), (0x11C72, 0x11C8F), (0x11D00, 0x11D06), (0x11D08, 0x11D09),
   (0x11D0B, 0x11D30), (0x11D46, 0x11D46), (0x11D50, 0x11D59), (0x11D60, 0x11D65), (0x11D67, 0x11D68), (0x11D6A, 0x11D89),
   (0x11D98, 0x11D98), (0x11DA0, 0x11DA9), (0x11EE0, 0x11EF2), (0x11FB0, 0x11FB0), (0x11FC0, 0x11FD4), (0x12000, 0x12399),
   (0x12400, 0x1246E), (0x12480, 0x12543), (0x12F90, 0x12FF0), (0x13000, 0x1342E), (0x14400, 0x14646), (0x16800, 0x16A38),
   (0x16A40, 0x16A5E), (0x16A60, 0x16A69), (0x16A70, 0x16ABE), (0x16AC0, 0x16AC9), (0x16AD0, 0x16AED), (0x16B00, 0x16B2F),
   (0x16B40, 0x16B43), (0x16B50, 0x16B59), (0x16B5B, 0x16B61), (0x16B63, 0x16B77), (0x16B7D, 0x16B8F), (0x16E40, 0x16E96),
   (0x16F00, 0x16F4A), (0x16F50, 0x16F50), (0x16F93, 0x16F9F), (0x16FE0, 0x16FE1), (0x16FE3, 0x16FE3), (0x17000, 0x187F7),
   (0x18800, 0x18CD5), (0x18D00, 0x18D08), (0x1AFF0, 0x1AFF3), (0x1AFF5, 0x1AFFB), (0x1AFFD, 0x1AFFE), (0x1B000, 0x1B122),
   (0x1B150, 0x1B152), (0x1B164, 0x1B167), (0x1B170, 0x1B2FB), (0x1BC00, 0x1BC6A), (0x1BC70, 0x1BC7C), (0x1BC80, 0x1BC88),
   (0x1BC90, 0x1BC99), (0x1D2E0, 0x1D2F3), (0x1D360, 0x1D378), (0x1D400, 0x1D454), (0x1D456, 0x1D49C), (0x1D49E, 0x1D49F),
   (0x1D4A2, 0x1D4A2), (0x1D4A5, 0x1D4A6), (0x1D4A9, 0x1D4AC), (0x1D4AE, 0x1D4B9), (0x1D4BB, 0x1D4BB), (0x1D4BD, 0x1D4C3),
   (0x1D4C5, 0x1D505), (0x1D507, 0x1D50A), (0x1D50D, 0x1D514), (0x1D516, 0x1D51C), (0x1D51E, 0x1D539), (0x1D53B, 0x1D53E),
   (0x1D540, 0x1D544), (0x1D546, 0x1D546), (0x1D54A, 0x1D550), (0x1D552, 0x1D6A5), (0x1D6A8, 0x1D6C0), (0x1D6C2, 0x1D6DA),
   (0x1D6DC, 0x1D6FA), (0x1D6FC, 0x1D714), (0x1D716, 0x1D734), (0x1D736, 0x1D74E), (0x1D750, 0x1D76E), (0x1D770, 0x1D788),
   (0x1D78A, 0x1D7A8), (0x1D7AA, 0x1D7C2), (0x1D7C4, 0x1D7CB), (0x1D7CE, 0x1D7FF), (0x1DF00, 0x1DF1E), (0x1E100, 0x1E12C),
   (0x1E137, 0x1E13D), (0x1E140, 0x1E149), (0x1E14E, 0x1E14E), (0x1E290, 0x1E2AD), (0x1E2C0, 0x1E2EB), (0x1E2F0, 0x1E2F9),
   (0x1E7E0, 0x1E7E6), (0x1E7E8, 0x1E7EB), (0x1E7ED, 0x1E7EE), (0x1E7F0, 0x1E7FE), (0x1E800, 0x1E8C4), (0x1E8C7, 0x1E8CF),
   (0x1E900, 0x1E943), (0x1E94B, 0x1E94B), (0x1E950, 0x1E959), (0x1EC71, 0x1ECAB), (0x1ECAD, 0x1ECAF), (0x1ECB1, 0x1ECB4),
   (0x1ED01, 0x1ED2D), (0x1ED2F, 0x1ED3D), (0x1EE00, 0x1EE03), (0x1EE05, 0x1EE1F), (0x1EE21, 0x1EE22), (0x1EE24, 0x1EE24),
   (0x1EE27, 0x1EE27), (0x1EE29, 0x1EE32), (0x1EE34, 0x1EE37), (0x1EE39, 0x1EE39), (0x1EE3B, 0x1EE3B), (0x1EE42, 0x1EE42),
   (0x1EE47, 0x1EE47), (0x1EE49, 0x1EE49), (0x1EE4B, 0x1EE4B), (0x1EE4D, 0x1EE4F), (0x1EE51, 0x1EE52), (0x1EE54, 0x1EE54),
   (0x1EE57, 0x1EE57), (0x1EE59, 0x1EE59), (0x1EE5B, 0x1EE5B), (0x1EE5D, 0x1EE5D), (0x1EE5F, 0x1EE5F), (0x1EE61, 0x1EE62),
   (0x1EE64, 0x1EE64), (0x1EE67, 0x1EE6A), (0x1EE6C, 0x1EE72), (0x1EE74, 0x1EE77), (0x1EE79, 0x1EE7C), (0x1EE7E, 0x1EE7E),
   (0x1EE80, 0x1EE89), (0x1EE8B, 0x1EE9B), (0x1EEA1, 0x1EEA3), (0x1EEA5, 0x1EEA9), (0x1EEAB, 0x1EEBB), (0x1F100, 0x1F10C),
   (0x1FBF0, 0x1FBF9), (0x20000, 0x2A6DF), (0x2A700, 0x2B738), (0x2B740, 0x2B81D), (0x2B820, 0x2CEA1), (0x2CEB0, 0x2EBE0),
   (0x2F800, 0x2FA1D), (0x30000, 0x3134A)]

/-- Word character for `\b` and `\w`. -/
def isWordChar (c : Char) : Bool :=
  reWordRanges.any fun r => r.1 ≤ c.toNat && c.toNat ≤ r.2

/-- Match a literal pattern case-insensitively; the pattern is given in lower
case and the consumed original characters are returned. -/
def matchLitCI : List Char → List Char → MatchResult
  | [], rest => some ([], rest)
  | _ :: _, [] => none
  | p :: ps, c :: cs =>
    if c.toLower = p then
      match matchLitCI ps cs with
      | some (m, r) => some (c :: m, r)
      | none => none
    else none

/-- Split off the longest prefix whose characters satisfy `p`. -/
def takeWhileSplit (p : Char → Bool) : List Char → List Char × List Char
  | [] => ([], [])
  | c :: cs =>
    if p c then
      let (a, b) := takeWhileSplit p cs
      (c :: a, b)
    else ([], c :: cs)

/-- Fragment for one character of a class. -/
def matchClass (p : Char → Bool) : List Char → MatchResult
  | c :: t => if p c then some ([c], t) else none
  | [] => none

/-- Fragment `X+` for a character class: greedy, at least one character. -/
def matchPlus (p : Char → Bool) (cs : List Char) : MatchResult :=
  match takeWhileSplit p cs with
  | ([], _) => none
  | (a, b) => some (a, b)

/-- Fragment `X*` for a character class: greedy, possibly empty. -/
def matchStar (p : Char → Bool) (cs : List Char) : MatchResult :=
  some (takeWhileSplit p cs)

/-- Fragment `X{lo,hi}` for a character class: greedy and capped at `hi`. -/
def matchRepeat (p : Char → Bool) (lo hi : Nat) (cs : List Char) : MatchResult :=
  let (a, b) := takeWhileSplit p cs
  let k := min a.length hi
  if k < lo then none else some (a.take k, a.drop k ++ b)

/-- Fragment `X?` for a single optional character, greedy. -/
def matchOpt (p : Char → Bool) (cs : List Char) : MatchResult :=
  match cs with
  | c :: rest => if p c then some ([c], rest) else some ([], c :: rest)
  | [] => some ([], [])

/-- Sequence two fragments, concatenating what they consume. -/
def andSeq (r : MatchResult) (f : List Char → MatchResult) : MatchResult :=
  match r with
  | none => none
  | some (m, rest) =>
    match f rest with
    | none => none
    | some (m2, rest2) => some (m ++ m2, rest2)

/-- Ordered alternation of fragments, as regex `|`. -/
def orAlt (r : MatchResult) (f : Unit → MatchResult) : MatchResult :=
  match r with
  | some x => some x
  | none => f ()

/-- Python `re.search` for a whole-match pattern: try the pattern at every
position, leftmost first, and return the consumed text (`group(0)`). -/
def reSearch (f : List Char → MatchResult) : List Char → Option (List Char)
  | [] => (f []).map Prod.fst
  | c :: cs =>
    match f (c :: cs) with
    | some (m, _) => some m
    | none => reSearch f cs

/-- Python `re.search` for a pattern whose matcher already extracts the
capture group of interest. -/
def reSearchCapture (f : List Char → Option (List Char)) : List Char → Option (List Char)
  | [] => f []
  | c :: cs =>
    match f (c :: cs) with
    | some g => some g
    | none => reSearchCapture f cs

/-- Python `re.search` for a pattern opening with `\b` followed by a word
character: positions preceded by a word character are skipped.  The boolean
says whether the previous character was a word character. -/
def reSearchBoundary (f : List Char → Option (List Char)) : Bool → List Char → Option (List Char)
  | _, [] => none
  | prevWord, c :: cs =>
    match (if prevWord then none else f (c :: cs)) with
    | some g => some g
    | none => reSearchBoundary f (isWordChar c) cs

/-! ## C5: prescription extraction (`OCRService._parse_prescription`,
src/services/ocr_service.py lines 160-271) -/

/-- Matcher at one position for `(Dr\.|Doctor|Dr)\s+([A-Za-z\s.]+)` under
`re.IGNORECASE`, returning `group(0)`; the alternatives are tried in pattern
order, each continued by the common tail.  The capture class contains `\s`,
so when it cannot start after the greedily consumed whitespace run, the
engine gives one whitespace character back from `\s+` to the capture; that
succeeds exactly when the run has at least two characters, and `group(0)` is
the literal plus the whole run either way. -/
def doctorAt (cs : List Char) : Option (List Char) :=
  let tail (r : MatchResult) : Option (List Char) :=
    match r with
    | none => none
    | some (lit, rest) =>
      let (ws, r2) := takeWhileSplit isPyWhitespace rest
      if ws.isEmpty then none
      else
        match matchPlus (fun c => reLetterCI c || isPyWhitespace c || c = '.') r2 with
        | some (g, _) => some (lit ++ ws ++ g)
        | none => if 2 ≤ ws.length then some (lit ++ ws) else none
  (tail (matchLitCI "dr.".data cs)).orElse fun _ =>
    (tail (matchLitCI "doctor".data cs)).orElse fun _ =>
      tail (matchLitCI "dr".data cs)

/-- Doctor-name rule of `_parse_prescription`: the first line where the
doctor pattern matches contributes `match.group(0).strip()`. -/
def extract_doctor_name (lines : List String) : Option String :=
  lines.findSome? fun line =>
    (reSearchBoundary doctorAt false line.data).map fun m => pyStrip ⟨m⟩

/-- Matcher for the first date pattern: `\d{1,2}`, a dash-or-slash separator, `\d{1,2}`, separator, `\d{2,4}`. -/
def dateNumericAt (cs : List Char) : MatchResult :=
  andSeq (andSeq (andSeq (andSeq (matchRepeat reDigit 1 2 cs)
    (matchClass fun c => c = '-' || c = '/')) (matchRepeat reDigit 1 2))
    (matchClass fun c => c = '-' || c = '/')) (matchRepeat reDigit 2 4)

/-- Matcher for the second date pattern: `\d{4}`, a dash-or-slash separator, `\d{1,2}`, separator, `\d{1,2}`. -/
def dateYearFirstAt (cs : List Char) : MatchResult :=
  andSeq (andSeq (andSeq (andSeq (matchRepeat reDigit 4 4 cs)
    (matchClass fun c => c = '-' || c = '/')) (matchRepeat reDigit 1 2))
    (matchClass fun c => c = '-' || c = '/')) (matchRepeat reDigit 1 2)

/-- Month alternation `(Jan|Feb|Mar|Apr|May|Jun|Jul|Aug|Sep|Oct|Nov|Dec)`,
tried in pattern order. -/
def monthAlt (cs : List Char) : MatchResult :=
  ["jan", "feb", "mar", "apr", "may", "jun",
   "jul", "aug", "sep", "oct", "nov", "dec"].foldr
    (fun m acc => orAlt (matchLitCI m.data cs) fun _ => acc) none

/-- Matcher for `\d{1,2}\s+(Jan|...|Dec)[a-z]*\s+\d{2,4}` at one position. -/
def dateMonthAt (cs : List Char) : MatchResult :=
  andSeq (andSeq (andSeq (andSeq (andSeq (matchRepeat reDigit 1 2 cs)
    (matchPlus isPyWhitespace)) monthAlt) (matchStar reLetterCI))
    (matchPlus isPyWhitespace)) (matchRepeat reDigit 2 4)

/-- Date rule of `_parse_prescription`: the three date patterns are tried in
order over the whole text; the first match contributes `group(0)`. -/
def extract_date (text : String) : Option String :=
  ((reSearch dateNumericAt text.data).orElse fun _ =>
    (reSearch dateYearFirstAt text.data).orElse fun _ =>
      reSearch dateMonthAt text.data).map fun m => (⟨m⟩ : String)

/-- Matcher at one position for `LABEL\s*[:\-]\s*(CLS+)` under
`re.IGNORECASE`, returning the capture group.  The second `\s*` is greedy;
when the capture cannot start right after the consumed whitespace run, the
engine backtracks `\s*` to the largest split whose first given-back
character lies in the capture class — the capture is then exactly that one
character, since everything after it was already rejected.  The last branch
reproduces this: the last run character satisfying `cls`, if any. -/
def labelCaptureAt (label : String) (cls : Char → Bool) (cs : List Char) : Option (List Char) :=
  match matchLitCI label.data cs with
  | none => none
  | some (_, r1) =>
    let (_, r2) := takeWhileSplit isPyWhitespace r1
    match r2 with
    | [] => none
    | c :: r3 =>
      if c = ':' || c = '-' then
        let (ws, r4) := takeWhileSplit isPyWhitespace r3
        match matchPlus cls r4 with
        | some (g, _) => some g
        | none =>
          match ws.reverse.find? cls with
          | some w => some [w]
          | none => none
      else none

/-- Capture class `[A-Za-z\s]` of the patient-name patterns. -/
def patientCls (c : Char) : Bool := reLetterCI c || isPyWhitespace c

/-- Patient-name rule of `_parse_prescription`: the patterns
`Patient\s*[:\-]\s*([A-Za-z\s]+)`, `Name\s*[:\-]\s*([A-Za-z\s]+)` and
`Patient Name\s*[:\-]\s*([A-Za-z\s]+)` are tried in order over the whole
text; the first match contributes `group(1).strip()`. -/
def extract_patient_name (text : String) : Option String :=
  ((reSearchCapture (labelCaptureAt "patient" patientCls) text.data).orElse fun _ =>
    (reSearchCapture (labelCaptureAt "name" patientCls) text.data).orElse fun _ =>
      reSearchCapture (labelCaptureAt "patient name" patientCls) text.data).map
    fun g => pyStrip ⟨g⟩

/-- Diagnosis rule of `_parse_prescription`: the patterns
`Diagnosis\s*[:\-]\s*([^\n]+)`, `Dx\s*[:\-]\s*([^\n]+)` and
`Impression\s*[:\-]\s*([^\n]+)` are tried in order over the whole text; the
first match contributes `group(1).strip()`. -/
def extract_diagnosis (text : String) : Option String :=
  ((reSearchCapture (labelCaptureAt "diagnosis" (· ≠ '\n')) text.data).orElse fun _ =>
    (reSearchCapture (labelCaptureAt "dx" (· ≠ '\n')) text.data).orElse fun _ =>
      reSearchCapture (labelCaptureAt "impression" (· ≠ '\n')) text.data).map
    fun g => pyStrip ⟨g⟩

/-- Keyword list selecting medication lines. -/
def medication_keywords : List String := ["tab", "cap", "syrup", "injection", "mg", "ml"]

/-- One entry of the `medications` list of a prescription record. -/
structure MedicationInfo where
  name : String
  dosage : Option String
  frequency : Option String
  duration : Option String
  deriving DecidableEq, Repr

/-- Matcher for group 1 of `(\d+\s*(?:mg|ml|g))` at one position. -/
def dosageAt (cs : List Char) : Option (List Char) :=
  (andSeq (andSeq (matchPlus reDigit cs) (matchStar isPyWhitespace))
    fun r => orAlt (matchLitCI "mg".data r) fun _ =>
      orAlt (matchLitCI "ml".data r) fun _ => matchLitCI "g".data r).map Prod.fst

/-- Matcher for group 1 of `(\d+\s*(?:times?|x)\s*(?:daily|per day|a day))`
at one position. -/
def freqNumericAt (cs : List Char) : Option (List Char) :=
  (andSeq (andSeq (andSeq (andSeq (matchPlus reDigit cs)
    (matchStar isPyWhitespace))
    fun r => orAlt (andSeq (matchLitCI "time".data r) (matchOpt fun c => c.toLower = 's'))
      fun _ => matchLitCI "x".data r)
    (matchStar isPyWhitespace))
    fun r => orAlt (matchLitCI "daily".data r) fun _ =>
      orAlt (matchLitCI "per day".data r) fun _ => matchLitCI "a day".data r).map Prod.fst

/-- Matcher for `(once|twice|thrice)\s*(?:daily|per day|a day)` at one
position, returning group 1 only.  At any position at most one of the three
alternatives can match, so no backtracking across them is needed. -/
def freqWordAt (cs : List Char) : Option (List Char) :=
  match orAlt (matchLitCI "once".data cs) fun _ =>
    orAlt (matchLitCI "twice".data cs) fun _ => matchLitCI "thrice".data cs with
  | none => none
  | some (g, r) =>
    match andSeq (matchStar isPyWhitespace r)
        (fun r2 => orAlt (matchLitCI "daily".data r2) fun _ =>
          orAlt (matchLitCI "per day".data r2) fun _ => matchLitCI "a day".data r2) with
    | some _ => some g
    | none => none

/-- Matcher for group 1 of `(\d+-\d+-\d+)` at one position. -/
def freqTripleAt (cs : List Char) : Option (List Char) :=
  (andSeq (andSeq (andSeq (andSeq (matchPlus reDigit cs)
    (matchClass (· = '-'))) (matchPlus reDigit)) (matchClass (· = '-')))
    (matchPlus reDigit)).map Prod.fst

/-- Matcher for group 1 of `(?:for\s+)?(\d+\s*(?:days?|weeks?|months?))` at
one position.  The optional non-capturing `for\s+` prefix never changes the
content of group 1, so it is not modelled. -/
def durationAt (cs : List Char) : Option (List Char) :=
  (andSeq (andSeq (matchPlus reDigit cs) (matchStar isPyWhitespace))
    fun r => orAlt (andSeq (matchLitCI "day".data r) (matchOpt fun c => c.toLower = 's'))
      fun _ => orAlt (andSeq (matchLitCI "week".data r) (matchOpt fun c => c.toLower = 's'))
        fun _ => andSeq (matchLitCI "month".data r) (matchOpt fun c => c.toLower = 's')).map
    Prod.fst

/-- Medication line processing of `_parse_prescription`: name is the stripped
line, and the dosage, frequency and duration rules each fill their field
independently when their pattern matches. -/
def parse_medication_line (line : String) : MedicationInfo :=
  { name := pyStrip line
    dosage := (reSearchCapture dosageAt line.data).map fun g => (⟨g⟩ : String)
    frequency :=
      match reSearchCapture freqNumericAt line.data with
      | some g => some ⟨g⟩
      | none =>
        match reSearchCapture freqWordAt line.data with
        | some g => some ⟨g⟩
        | none => (reSearchCapture freqTripleAt line.data).map fun g => (⟨g⟩ : String)
    duration := (reSearchCapture durationAt line.data).map fun g => (⟨g⟩ : String) }

/-- Medication rule of `_parse_prescription`: every line containing one of
the keywords (in its lower-cased text) contributes one entry, in order. -/
def extract_medications (lines : List String) : List MedicationInfo :=
  lines.foldl
    (fun acc line =>
      if medication_keywords.any (fun k => pyContains (pyLower line) k) then
        acc ++ [parse_medication_line line]
      else acc) []

/-- Output record of `_parse_prescription`.  `hospital` and `instructions`
are declared in the initial dict and never assigned. -/
structure PrescriptionRecord where
  doctor_name : Option String
  hospital : Option String
  date : Option String
  patient_name : Option String
  medications : List MedicationInfo
  diagnosis : Option String
  instructions : Option String
  deriving DecidableEq, Repr

/-- Embedding of `OCRService._parse_prescription(text)`: starts from the
all-null record and performs the field assignments in source order, each
guarded by its own pattern match.  The `try`/`except` of the source can
never fire here — none of the embedded operations is fallible — so the
function is total and always returns a record. -/
def parse_prescription (text : String) : PrescriptionRecord :=
  let data : PrescriptionRecord :=
    { doctor_name := none, hospital := none, date := none, patient_name := none,
      medications := [], diagnosis := none, instructions := none }
  let lines := pySplitLines text
  let data := match extract_doctor_name lines with
    | some d => { data with doctor_name := some d }
    | none => data
  let data := match extract_date text with
    | some d => { data with date := some d }
    | none => data
  let data := match extract_patient_name text with
    | some p => { data with patient_name := some p }
    | none => data
  let data := { data with medications := extract_medications lines }
  let data := match extract_diagnosis text with
    | some d => { data with diagnosis := some d }
    | none => data
  data

/-! ## C4 / C10: lab-report extraction (`OCRService._parse_lab_report`,
src/services/ocr_service.py lines 273-304) and document dispatch
(`OCRService.extract_medical_document`, lines 118-158) -/

/-- One test row of a lab report. -/
structure LabTestRow where
  name : String
  result : String
  deriving DecidableEq, Repr

/-- Output record of `_parse_lab_report`. -/
structure LabReportRecord where
  patient_name : Option String
  date : Option String
  tests : List LabTestRow
  deriving DecidableEq, Repr

/-- Worker for `pySplit1`, carrying the reversed prefix read so far. -/
def pySplit1Aux (sep : Char) (acc : List Char) : List Char → List String
  | [] => [⟨acc.reverse⟩]
  | c :: t => if c = sep then [⟨acc.reverse⟩, ⟨t⟩] else pySplit1Aux sep (c :: acc) t

/-- Python `line.split(sep, 1)`: at most one split, at the first occurrence
of `sep`. -/
def pySplit1 (line : String) (sep : Char) : List String :=
  pySplit1Aux sep [] line.data

/-- Embedding of `OCRService._parse_lab_report(text)`: the record starts with
null patient name and date, and the loop appends one test row for every line
containing a colon, split at the first colon with both halves stripped. -/
def parse_lab_report (text : String) : LabReportRecord :=
  let lines := pySplitLines text
  let tests := lines.foldl
    (fun acc line =>
      if line.data.contains ':' then
        match pySplit1 line ':' with
        | [a, b] => acc ++ [{ name := pyStrip a, result := pyStrip b }]
        | _ => acc
      else acc) []
  { patient_name := none, date := none, tests := tests }

/-- Per-line lab row as claim C4 phrases it: a line containing a colon yields
the trimmed text before the first colon as name and the trimmed text after it
as result; other lines yield nothing. -/
def labRowOfLine (line : String) : Option LabTestRow :=
  if line.data.contains ':' then
    some { name := pyStrip ⟨line.data.takeWhile (· ≠ ':')⟩,
           result := pyStrip ⟨(line.data.dropWhile (· ≠ ':')).drop 1⟩ }
  else none

/-- Output record of `_parse_medical_certificate`. -/
structure MedicalCertificateRecord where
  doctor_name : Option String
  patient_name : Option String
  date : Option String
  diagnosis : Option String
  recommendations : Option String
  deriving DecidableEq, Repr

/-- Embedding of `OCRService._parse_medical_certificate(text)`: the
simplified source fills nothing and returns the all-null record. -/
def parse_medical_certificate (_text : String) : MedicalCertificateRecord :=
  { doctor_name := none, patient_name := none, date := none,
    diagnosis := none, recommendations := none }

/-- Structured data attached to an extracted medical document, one
constructor per `document_type` branch. -/
inductive ExtractedData where
  | prescription (record : PrescriptionRecord)
  | lab_report (record : LabReportRecord)
  | medical_certificate (record : MedicalCertificateRecord)
  | raw (raw_text : String)
  deriving DecidableEq, Repr

/-- Result dictionary of the OCR collaborator (`extract_text_from_image`). -/
structure OCRResult where
  success : Bool
  text : String
  confidence : ℚ
  error : Option String
  deriving DecidableEq, Repr

/-- Result dictionary of `extract_medical_document`. -/
structure MedicalDocumentResult where
  success : Bool
  document_type : Option String
  extracted_data : Option ExtractedData
  raw_text : Option String
  confidence : Option ℚ
  error : Option String
  deriving DecidableEq, Repr

/-- Embedding of `OCRService.extract_medical_document` (lines 118-158): the
OCR collaborator's output is passed in as `ocr`; on OCR failure its error is
propagated, otherwise the raw text is parsed according to `document_type`
and passed through with the confidence. -/
def extract_medical_document (ocr : OCRResult) (document_type : String) : MedicalDocumentResult :=
  if !ocr.success then
    { success := false, document_type := none, extracted_data := none,
      raw_text := none, confidence := none,
      error := some (ocr.error.getD "Text extraction failed") }
  else
    let raw_text := ocr.text
    let extracted_data :=
      if document_type = "prescription" then
        ExtractedData.prescription (parse_prescription raw_text)
      else if document_type = "lab_report" then
        ExtractedData.lab_report (parse_lab_report raw_text)
      else if document_type = "medical_certificate" then
        ExtractedData.medical_certificate (parse_medical_certificate raw_text)
      else ExtractedData.raw raw_text
    { success := true, document_type := some document_type,
      extracted_data := some extracted_data, raw_text := some raw_text,
      confidence := some ocr.confidence, error := none }

/-! ## C8: recommendations parsing (`_extract_recommendations`,
src/api/family_insights.py lines 357-380) -/

/-- Python `s.startswith(pre)`. -/
def pyStartsWith (s pre : String) : Bool := pre.data.isPrefixOf s.data

/-- Python `line.lstrip(chars)`: drop leading characters that occur in
`chars`. -/
def pyLstrip (s : String) (chars : List Char) : String :=
  ⟨s.data.dropWhile fun c => chars.contains c⟩

/-- Exact argument of the `lstrip` call in `_extract_recommendations`:
digits, dot, dash, bullet and space. -/
def enumerator_chars : List Char := "0123456789.-•  ".data

/-- Fixed fallback list of `_extract_recommendations`. -/
def default_recommendations : List String :=
  ["Maintain regular health check-ups for all family members",
   "Keep medical records organized and up-to-date",
   "Monitor chronic conditions as prescribed",
   "Promote healthy lifestyle habits across the family"]

/-- Embedding of `_extract_recommendations(ai_response)`: collect stripped
lines opening with a digit, a dash or a bullet, with the enumerator prefix
removed and empty leftovers dropped; fall back to the default list when
nothing was collected; cap the answer at 5. -/
def extract_recommendations (ai_response : String) : List String :=
  let lines := pySplitLines ai_response
  let recommendations := lines.foldl
    (fun acc line =>
      let line := pyStrip line
      if line ≠ "" ∧ (pyIsDigit (line.data.headD ' ')
          ∨ pyStartsWith line "-" ∨ pyStartsWith line "•") then
        let clean_line := pyLstrip line enumerator_chars
        if clean_line ≠ "" then acc ++ [clean_line] else acc
      else acc) []
  let recommendations :=
    if recommendations = [] then default_recommendations else recommendations
  recommendations.take 5

/-- Per-line qualification as claim C8 phrases it: after trimming, a line
whose first character is a digit, a dash or a bullet contributes its text
with the leading enumerator characters stripped, unless nothing remains;
every other line contributes nothing. -/
def recommendationOfLine? (line : String) : Option String :=
  let l := pyStrip line
  if l ≠ "" ∧ (pyIsDigit (l.data.headD ' ')
      ∨ pyStartsWith l "-" ∨ pyStartsWith l "•") then
    let clean_line := pyLstrip l enumerator_chars
    if clean_line ≠ "" then some clean_line else none
  else none

/-! ## C2 / C6: chat orchestration (`AIService`, src/services/ai_service.py) -/

/-- English medical system prompt set up in `AIService.__init__`. -/
def medical_system_prompt_en : String :=
  "You are a helpful medical health assistant for mySahara Health App.\n" ++
  "Your role is to provide accurate, empathetic, and culturally sensitive health information to users in Bangladesh and globally.\n" ++
  "\n" ++
  "Key guidelines:\n" ++
  "- Provide evidence-based health information\n" ++
  "- Be empathetic and understanding\n" ++
  "- Always include a disclaimer that you\x27re not replacing professional medical advice\n" ++
  "- Encourage users to consult healthcare professionals for serious concerns\n" ++
  "- Be culturally sensitive to Bangladeshi context\n" ++
  "- Keep responses clear, concise, and actionable\n" ++
  "- If unsure, admit it and suggest consulting a doctor\n" ++
  "- Never diagnose or prescribe medication\n" ++
  "- IMPORTANT: Always respond in the SAME LANGUAGE as the user\x27s question. If they ask in English, respond in English. If they ask in Bangla, respond in Bangla.\n" ++
  "\n" ++
  "Format responses in a friendly, conversational tone."

/-- Bengali medical system prompt set up in `AIService.__init__`. -/
def medical_system_prompt_bn : String :=
  "আপনি mySahara হেলথ অ্যাপের একজন সহায়ক চিকিৎসা স্বাস্থ্য সহায়ক।\n" ++
  "আপনার ভূমিকা হল বাংলাদেশ এবং বিশ্বব্যাপী ব্যবহারকারীদের সঠিক, সহানুভূতিশীল এবং সাংস্কৃতিকভাবে সংবেদনশীল স্বাস্থ্য তথ্য প্রদান করা।\n" ++
  "\n" ++
  "মূল নির্দেশিকা:\n" ++
  "- প্রমাণ-ভিত্তিক স্বাস্থ্য তথ্য প্রদান করুন\n" ++
  "- সহানুভূতিশীল এবং বোধগম্য হন\n" ++
  "- সবসময় একটি দাবিত্যাগ অন্তর্ভুক্ত করুন যে আপনি পেশাদার চিকিৎসা পরামর্শ প্রতিস্থাপন করছেন না\n" ++
  "- গুরুতর সমস্যার জন্য ব্যবহারকারীদের স্বাস্থ্যসেবা পেশাদারদের সাথে পরামর্শ করতে উৎসাহিত করুন\n" ++
  "- বাংলাদেশী প্রসঙ্গে সাংস্কৃতিকভাবে সংবেদনশীল হন\n" ++
  "- প্রতিক্রিয়া স্পষ্ট, সংক্ষিপ্ত এবং কার্যকর রাখুন\n" ++
  "- অনিশ্চিত হলে স্বীকার করুন এবং ডাক্তারের পরামর্শ নেওয়ার পরামর্শ দিন\n" ++
  "- কখনই রোগ নির্ণয় বা ওষুধ নির্ধারণ করবেন না\n" ++
  "- গুরুত্বপূর্ণ: সবসময় ব্যবহারকারীর প্রশ্নের মতো একই ভাষায় উত্তর দিন। তারা ইংরেজিতে জিজ্ঞাসা করলে ইংরেজিতে উত্তর দিন। তারা বাংলায় জিজ্ঞাসা করলে বাংলায় উত্তর দিন।\n" ++
  "\n" ++
  "বন্ধুত্বপূর্ণ, কথোপকথনমূলক সুরে প্রতিক্রিয়া ফরম্যাট করুন।"

/-- Embedding of `AIService._get_system_prompt(language, use_medical_mode)`
(lines 83-100): the generic prompt without medical mode, the Bengali medical
prompt for "bn", and the English one for every other language value. -/
def get_system_prompt (language : String) (use_medical_mode : Bool) : String :=
  if !use_medical_mode then "You are a helpful AI assistant."
  else if language = "bn" then medical_system_prompt_bn
  else medical_system_prompt_en

/-- Same-language directive appended by `AIService.chat` when the language is
exactly "en". -/
def en_language_directive : String :=
  "\n\nIMPORTANT: The user\x27s message is in English. You MUST respond in English only."

/-- Same-language directive appended by `AIService.chat` for every language
value other than "en" (it is written in Bengali). -/
def bn_language_directive : String :=
  "\n\nগুরুত্বপূর্ণ: ব্যবহারকারীর বার্তা বাংলায়। আপনাকে অবশ্যই শুধুমাত্র বাংলায় উত্তর দিতে হবে।"

/-- System prompt as composed inside `AIService.chat` (lines 283-300): base
prompt for the language, then the same-language directive — the English one
exactly when the language is "en" — then the rendered context lines when a
non-empty context dict was given. -/
def chat_system_prompt (language : String) (use_medical_mode : Bool)
    (context : List (String × String)) : String :=
  let p := get_system_prompt language use_medical_mode
  let p := if language = "en" then p ++ en_language_directive else p ++ bn_language_directive
  if context.isEmpty then p
  else p ++ "\n\nAdditional Context:\n"
    ++ String.join (context.map fun kv => "- " ++ kv.1 ++ ": " ++ kv.2 ++ "\n")

/-- Outcome of one provider API call, abstracting the network interaction:
the body of the `try` either produces a message or raises, and the `except`
turns the exception into a failure dict. -/
inductive ProviderOutcome where
  | ok (message : String)
  | fail (error : String)
  deriving DecidableEq, Repr

/-- Result dictionary of the chat methods of `AIService`. -/
structure ChatResult where
  success : Bool
  message : Option String
  model_used : Option String
  error : Option String
  language : Option String
  deriving DecidableEq, Repr

/-- Embedding of `AIService.chat_with_groq` (lines 120-197) at its default
model: a success dict carrying `model_used = "llama-3.3-8b-instant"`, or a
failure dict carrying the error.  The prompt is threaded through as in the
source; the outcome of the abstracted API call is the oracle `outcome`. -/
def chat_with_groq (_system_prompt : String) (outcome : ProviderOutcome) : ChatResult :=
  match outcome with
  | .ok m =>
    { success := true, message := some m, model_used := some "llama-3.3-8b-instant",
      error := none, language := none }
  | .fail e =>
    { success := false, message := none, model_used := none,
      error := some e, language := none }

/-- Embedding of `AIService.chat_with_gemini` (lines 199-257): a success dict
carrying `model_used = "gemini-1.5-flash"`, or a failure dict. -/
def chat_with_gemini (_system_prompt : String) (outcome : ProviderOutcome) : ChatResult :=
  match outcome with
  | .ok m =>
    { success := true, message := some m, model_used := some "gemini-1.5-flash",
      error := none, language := none }
  | .fail e =>
    { success := false, message := none, model_used := none,
      error := some e, language := none }

/-- Final dictionary of `AIService.chat` when every configured provider has
failed (or none is configured). -/
def chatAllFailed (language : String) : ChatResult :=
  { success := false, message := none, model_used := none,
    error := some "All AI services are unavailable", language := some language }

/-- Tail of `AIService.chat` after the Groq branch fell through: consult
Gemini when configured, else report total failure.  The list accumulates the
providers attempted, in order. -/
def chatFallbackGemini (gemini : Option ProviderOutcome) (system_prompt language : String)
    (attempts : List String) : ChatResult × List String :=
  match gemini with
  | some outcome =>
    let result := chat_with_gemini system_prompt outcome
    if result.success then ({ result with language := some language }, attempts ++ ["gemini"])
    else (chatAllFailed language, attempts ++ ["gemini"])
  | none => (chatAllFailed language, attempts)

/-- Embedding of `AIService.chat` (lines 259-331).  `groq`/`gemini` are
`none` when the corresponding client is not configured, and otherwise hold
the outcome the provider would produce; the control flow mirrors the
source's try-Groq-first-then-Gemini fall-through, consulting each configured
provider at most once.  The second component lists the providers attempted,
in order, instrumenting the call structure. -/
def chat (groq gemini : Option ProviderOutcome) (message language : String)
    (use_medical_mode : Bool) (context : List (String × String)) : ChatResult × List String :=
  let language := if language = "" ∨ language = "auto" then detect_language message else language
  let system_prompt := chat_system_prompt language use_medical_mode context
  match groq with
  | some outcome =>
    let result := chat_with_groq system_prompt outcome
    if result.success then ({ result with language := some language }, ["groq"])
    else chatFallbackGemini gemini system_prompt language ["groq"]
  | none => chatFallbackGemini gemini system_prompt language []

/-! ## C7: risk-factor extraction (`_extract_risk_factors`, src/api/health.py
lines 452-509) -/

/-- Decimal value of a Unicode decimal digit: every Nd range is a
zero-aligned run, so the value is the offset into the run modulo 10. -/
def digitVal? (c : Char) : Option Nat :=
  (reDigitRanges.find? fun r => r.1 ≤ c.toNat && c.toNat ≤ r.2).map
    fun r => (c.toNat - r.1) % 10

/-- Read an all-digit character list as a number; `none` when empty or when a
non-digit occurs. -/
def digitsToNat? : List Char → Option Nat
  | [] => none
  | cs =>
    cs.foldl
      (fun acc c =>
        match acc, digitVal? c with
        | some a, some d => some (10 * a + d)
        | _, _ => none) (some 0)

/-- Python `int(s)` on decimal text: surrounding whitespace is allowed, then
an optional sign and at least one ASCII digit; anything else raises
`ValueError`, which is `none` here. -/
def pyInt? (s : String) : Option Int :=
  match (pyStrip s).data with
  | '+' :: ds => (digitsToNat? ds).map Int.ofNat
  | '-' :: ds => (digitsToNat? ds).map fun n => -(n : Int)
  | ds => (digitsToNat? ds).map Int.ofNat

/-- One entry of the risk-factor list. -/
structure RiskFactor where
  factor : String
  impact : String
  deriving DecidableEq, Repr

/-- Health-metrics dictionary as read by `_extract_risk_factors`: the two
keys the code touches.  `bmi` is kept numeric (the code checks
`isinstance(bmi, (int, float))`), `blood_pressure` is rendered through
`str(...)` by the code and therefore kept as text.  A `none` field is an
absent key. -/
structure HealthMetrics where
  bmi : Option ℚ
  blood_pressure : Option String
  deriving DecidableEq, Repr

/-- Lifestyle dictionary as read by `_extract_risk_factors`: `smoking` is the
truthiness of the `smoking` key, and `exercise` the value of the `exercise`
key when present (the code defaults it to `""`). -/
structure LifestyleFactors where
  smoking : Bool
  exercise : Option String
  deriving DecidableEq, Repr

/-- Embedding of `_extract_risk_factors(health_metrics, medical_history,
lifestyle_factors)`.  A `none` argument is a Python `None` or empty (falsy)
container.  The one fallible operation of the source is the unguarded
`int(str(bp).split("/")[0])` in the blood-pressure branch; its `ValueError`
surfaces as `Except.error`, aborting before the later branches run, exactly
as the uncaught exception does in Python. -/
def extract_risk_factors (health_metrics : Option HealthMetrics)
    (medical_history : Option (List String))
    (lifestyle_factors : Option LifestyleFactors) : Except String (List RiskFactor) :=
  let bmiFactors : List RiskFactor :=
    match health_metrics with
    | none => []
    | some m =>
      match m.bmi with
      | some bmi =>
        if bmi ≠ 0 then
          if bmi > 30 then [{ factor := "High BMI (Obesity)", impact := "high" }]
          else if bmi > 25 then [{ factor := "Overweight", impact := "medium" }]
          else []
        else []
      | none => []
  let bpStep : Except String (List RiskFactor) :=
    match health_metrics with
    | none => .ok []
    | some m =>
      match m.blood_pressure with
      | some bp =>
        if bp ≠ "" ∧ pyContains bp "/" then
          match pyInt? ⟨(pySplitCharList '/' bp.data).headD []⟩ with
          | none => .error "ValueError: invalid literal for int() with base 10"
          | some systolic =>
            .ok (if systolic > 140
              then [{ factor := "High Blood Pressure", impact := "high" }] else [])
        else .ok []
      | none => .ok []
  match bpStep with
  | .error e => .error e
  | .ok bpFactors =>
    let historyFactors : List RiskFactor :=
      match medical_history with
      | none => []
      | some conditions =>
        conditions.map fun condition =>
          { factor := "History of " ++ condition, impact := "medium" }
    let lifestyleList : List RiskFactor :=
      match lifestyle_factors with
      | none => []
      | some lf =>
        (if lf.smoking then [{ factor := "Smoking", impact := "high" }] else [])
          ++ (let exercise := lf.exercise.getD ""
              if pyContains (pyLower exercise) "sedentary"
                  ∨ pyContains (pyLower exercise) "none" then
                [{ factor := "Sedentary Lifestyle", impact := "medium" }]
              else [])
    .ok (bmiFactors ++ bpFactors ++ historyFactors ++ lifestyleList)

/-! ## Theorems settling the claims -/

/-- C1: risk-level determination assigns high on an emergency-phrase match or
a severe hint, else medium on a moderate hint or a symptom count above 3,
else low, with the rules in that priority order; the spec's three examples
evaluate as stated. -/
theorem determine_risk_level_matches_claim :
    (∀ symptoms severity,
        determine_risk_level symptoms severity = risk_level_claim symptoms severity)
    ∧ determine_risk_level ["chest pain"] none = "high"
    ∧ determine_risk_level
        ["mild headache", "mild headache", "mild headache", "mild headache"] none = "medium"
    ∧ determine_risk_level ["tiredness"] none = "low" := by
  refine ⟨?_, by decide, by decide, by decide⟩
  intro symptoms severity
  unfold determine_risk_level risk_level_claim
  split_ifs <;> simp_all

/-- C9: the emergency test runs on the space-joined lower-cased symptom text:
no emergency phrase is contained in the single symptom "severe" nor in
"bleeding", yet the list ["severe", "bleeding"] is assessed as high. -/
theorem emergency_match_is_on_joined_text :
    determine_risk_level ["severe", "bleeding"] none = "high"
    ∧ emergency_symptoms.all
        (fun em => !pyContains "severe" em && !pyContains "bleeding" em) = true := by
  decide

/-- C3 counterexample: on one Bengali letter followed by four tabs the code
answers "en" (tabs inflate its denominator to 5), while the claim's
non-whitespace ratio is 1/1 > 0.2 and demands "bn". -/
theorem detect_language_claim_counterexample :
    detect_language "আ\t\t\t\t" = "en"
    ∧ detect_language_claim "আ\t\t\t\t" = "bn" := by
  decide

/-- C3 amended: the detector returns "bn" exactly when the Bengali-block count
exceeds a fifth of the count of characters other than space and newline,
and otherwise — in particular on empty or whitespace-only input — "en". -/
theorem detect_language_matches_amended_claim :
    ∀ text, detect_language text = detect_language_amended text := by
  intro text
  unfold detect_language detect_language_amended
  have h : ((text.data.filter (fun c => c ≠ ' ')).filter (fun c => c ≠ '\n')).length
      = text.data.countP (fun c => c ≠ ' ' && c ≠ '\n') := by
    rw [List.filter_filter]
    rw [← List.countP_eq_length_filter]
    congr 1
    funext c
    by_cases h1 : c = ' ' <;> by_cases h2 : c = '\n' <;> simp [h1, h2]
  rw [h, ← List.countP_eq_length_filter]

/-- Folding an append of each element's optional contribution is
`filterMap`. -/
theorem foldl_append_toList {α β : Type} (f : α → Option β) (l : List α) (acc : List β) :
    l.foldl (fun a x => a ++ (f x).toList) acc = acc ++ l.filterMap f := by
  induction l generalizing acc with
  | nil => simp
  | cons x t ih => cases h : f x <;> simp [ih, h]

/-- Characterization of `pySplit1Aux`: it splits at the first occurrence of
the separator when there is one, else returns the whole remaining text. -/
theorem pySplit1Aux_eq (sep : Char) (cs : List Char) : ∀ acc,
    pySplit1Aux sep acc cs =
      if cs.contains sep then
        [⟨acc.reverse ++ cs.takeWhile (· ≠ sep)⟩, ⟨(cs.dropWhile (· ≠ sep)).drop 1⟩]
      else [⟨acc.reverse ++ cs⟩] := by
  induction cs with
  | nil => intro acc; simp [pySplit1Aux]
  | cons c t ih =>
    intro acc
    by_cases hc : c = sep
    · subst hc
      simp [pySplit1Aux, List.contains_cons]
    · simp only [pySplit1Aux, if_neg hc, ih, List.contains_cons]
      have hbeq : (sep == c) = false := by
        simp [beq_iff_eq]
        exact fun h => hc h.symm
      rw [hbeq]
      simp only [Bool.false_or]
      by_cases ht : t.contains sep
      · rw [if_pos ht, if_pos ht]
        simp [List.takeWhile_cons, List.dropWhile_cons, hc]
      · rw [if_neg ht, if_neg ht]
        simp

/-- On a line containing a colon, Python `line.split(':', 1)` yields the text
before the first colon and the text after it. -/
theorem pySplit1_colon (line : String) (h : line.data.contains ':' = true) :
    pySplit1 line ':' =
      [⟨line.data.takeWhile (· ≠ ':')⟩, ⟨(line.data.dropWhile (· ≠ ':')).drop 1⟩] := by
  unfold pySplit1
  rw [pySplit1Aux_eq, if_pos h]
  rfl

/-- C4: the lab-report extractor appends, in source order, exactly one row
per line containing a colon — the trimmed text before the first colon as
name, the trimmed text after it as result, kept as text — and nothing for
other lines; on the spec's two-line sample the document dispatcher yields
exactly the two rows, in order. -/
theorem parse_lab_report_matches_claim :
    (∀ text, (parse_lab_report text).tests = (pySplitLines text).filterMap labRowOfLine)
    ∧ (extract_medical_document
        { success := true, text := "Hemoglobin: 13.5 g/dL\nWBC: 7200",
          confidence := 0, error := none } "lab_report").extracted_data
      = some (.lab_report
          { patient_name := none, date := none,
            tests := [{ name := "Hemoglobin", result := "13.5 g/dL" },
                      { name := "WBC", result := "7200" }] }) := by
  constructor
  · intro text
    have hrfl : (parse_lab_report text).tests
        = (pySplitLines text).foldl
            (fun acc line =>
              if line.data.contains ':' then
                match pySplit1 line ':' with
                | [a, b] => acc ++ [{ name := pyStrip a, result := pyStrip b }]
                | _ => acc
              else acc) [] := rfl
    have hbody : ∀ (acc : List LabTestRow), ∀ line ∈ pySplitLines text,
        (if line.data.contains ':' then
          match pySplit1 line ':' with
          | [a, b] => acc ++ [{ name := pyStrip a, result := pyStrip b }]
          | _ => acc
        else acc) = acc ++ (labRowOfLine line).toList := by
      intro acc line _
      by_cases h : line.data.contains ':'
      · rw [if_pos h, pySplit1_colon line h]
        unfold labRowOfLine
        rw [if_pos h]
        rfl
      · rw [if_neg h]
        unfold labRowOfLine
        rw [if_neg h]
        simp
    rw [hrfl, List.foldl_ext _ (fun acc line => acc ++ (labRowOfLine line).toList) [] hbody,
      foldl_append_toList]
    rfl
  · rfl

/-- C10: every lab-report record has null patient name and null date — no
rule of `_parse_lab_report` ever assigns them. -/
theorem parse_lab_report_constant_fields :
    ∀ text, (parse_lab_report text).patient_name = none
      ∧ (parse_lab_report text).date = none := by
  intro text
  exact ⟨rfl, rfl⟩

/-- C5: prescription extraction always returns a record — the embedding is a
total function — whose fields are each produced by their own independent
rule, a miss leaving the field null without affecting the others; a
completely unparseable document and the empty document both yield the record
with null doctor name, date, patient name and diagnosis and an empty
medication list, not a failure. -/
theorem parse_prescription_total_and_independent :
    (∀ text, parse_prescription text =
      { doctor_name := extract_doctor_name (pySplitLines text),
        hospital := none,
        date := extract_date text,
        patient_name := extract_patient_name text,
        medications := extract_medications (pySplitLines text),
        diagnosis := extract_diagnosis text,
        instructions := none })
    ∧ parse_prescription "???? !!!!" =
      { doctor_name := none, hospital := none, date := none, patient_name := none,
        medications := [], diagnosis := none, instructions := none }
    ∧ parse_prescription "" =
      { doctor_name := none, hospital := none, date := none, patient_name := none,
        medications := [], diagnosis := none, instructions := none }
    ∧ extract_doctor_name (pySplitLines "Dr.  5mg") = some "Dr."
    ∧ extract_diagnosis "Diagnosis:\n" = none := by
  refine ⟨?_, rfl, rfl, rfl, rfl⟩
  intro text
  simp only [parse_prescription]
  cases extract_doctor_name (pySplitLines text) <;>
    cases extract_date text <;>
      cases extract_patient_name text <;>
        cases extract_diagnosis text <;> rfl

/-- C7: risk-factor extraction reaches the unguarded `int` conversion: with
`blood_pressure = "abc/80"` — a slash-containing reading whose prefix is not
an integer literal — the call aborts with a `ValueError` instead of
returning a factor list, while a numeric reading is processed normally. -/
theorem extract_risk_factors_bad_bp_raises :
    extract_risk_factors (some { bmi := none, blood_pressure := some "abc/80" }) none none
      = .error "ValueError: invalid literal for int() with base 10"
    ∧ extract_risk_factors (some { bmi := none, blood_pressure := some "150/90" }) none none
      = .ok [{ factor := "High Blood Pressure", impact := "high" }] := by
  exact ⟨rfl, rfl⟩

/-- Per-line agreement of the recommendation loop body with the claim-side
per-line function. -/
theorem recommendation_body_eq (acc : List String) (line : String) :
    (let l := pyStrip line
     if l ≠ "" ∧ (pyIsDigit (l.data.headD ' ')
         ∨ pyStartsWith l "-" ∨ pyStartsWith l "•") then
       let clean_line := pyLstrip l enumerator_chars
       if clean_line ≠ "" then acc ++ [clean_line] else acc
     else acc) = acc ++ (recommendationOfLine? line).toList := by
  unfold recommendationOfLine?
  dsimp only
  split_ifs <;> simp

/-- C8: the recommendations parser returns, in source order and capped at 5,
exactly the trimmed lines opening with a digit, a dash or a bullet, with the
leading enumerator characters stripped and empty leftovers discarded, and
falls back to the fixed 4-item default list when no line qualifies; on the
spec's sample it keeps the two numbered entries and drops the prose line. -/
theorem extract_recommendations_matches_claim :
    (∀ text, extract_recommendations text =
      (if (pySplitLines text).filterMap recommendationOfLine? = [] then
        default_recommendations
      else ((pySplitLines text).filterMap recommendationOfLine?).take 5))
    ∧ extract_recommendations "1. Drink water\n2. Sleep 8 hours\nSome prose"
      = ["Drink water", "Sleep 8 hours"]
    ∧ extract_recommendations "১. পানি পান করুন" = ["১. পানি পান করুন"] := by
  constructor
  · intro text
    have hrfl : extract_recommendations text =
        (let r := (pySplitLines text).foldl
          (fun acc line =>
            let l := pyStrip line
            if l ≠ "" ∧ (pyIsDigit (l.data.headD ' ')
                ∨ pyStartsWith l "-" ∨ pyStartsWith l "•") then
              let clean_line := pyLstrip l enumerator_chars
              if clean_line ≠ "" then acc ++ [clean_line] else acc
            else acc) []
         (if r = [] then default_recommendations else r).take 5) := rfl
    rw [hrfl]
    rw [List.foldl_ext _ (fun acc line => acc ++ (recommendationOfLine? line).toList) []
      (fun acc line _ => recommendation_body_eq acc line)]
    rw [foldl_append_toList]
    by_cases h : (pySplitLines text).filterMap recommendationOfLine? = [] <;>
      simp [h, default_recommendations]
  · exact ⟨rfl, rfl⟩

/-- C2: with a configured failing primary (Groq) and a configured succeeding
secondary (Gemini) the chat call succeeds and reports the secondary's model
identifier; when no configured provider succeeds — including when none is
configured — it fails with a non-empty error string; and each call attempts
any provider at most once, and only configured ones. -/
theorem chat_fallback_matches_claim :
    (∀ e m message language mode ctx,
        (chat (some (.fail e)) (some (.ok m)) message language mode ctx).1.success = true
        ∧ (chat (some (.fail e)) (some (.ok m)) message language mode ctx).1.model_used
            = some "gemini-1.5-flash")
    ∧ (∀ groq gemini message language mode ctx,
        (∀ m, groq ≠ some (.ok m)) → (∀ m, gemini ≠ some (.ok m)) →
          (chat groq gemini message language mode ctx).1.success = false
          ∧ ∃ err, (chat groq gemini message language mode ctx).1.error = some err ∧ err ≠ "")
    ∧ (∀ groq gemini message language mode ctx provider,
        (chat groq gemini message language mode ctx).2.count provider ≤ 1
        ∧ ("groq" ∈ (chat groq gemini message language mode ctx).2 → groq ≠ none)
        ∧ ("gemini" ∈ (chat groq gemini message language mode ctx).2 → gemini ≠ none)) := by
  refine ⟨?_, ?_, ?_⟩
  · intro e m message language mode ctx
    exact ⟨rfl, rfl⟩
  · intro groq gemini message language mode ctx hg hge
    have herr : ("All AI services are unavailable" : String) ≠ "" := by decide
    rcases groq with _ | og
    · rcases gemini with _ | oge
      · exact ⟨rfl, "All AI services are unavailable", rfl, herr⟩
      · rcases oge with m | er
        · exact absurd rfl (hge m)
        · exact ⟨rfl, "All AI services are unavailable", rfl, herr⟩
    · rcases og with m | er
      · exact absurd rfl (hg m)
      · rcases gemini with _ | oge
        · exact ⟨rfl, "All AI services are unavailable", rfl, herr⟩
        · rcases oge with m2 | er2
          · exact absurd rfl (hge m2)
          · exact ⟨rfl, "All AI services are unavailable", rfl, herr⟩
  · intro groq gemini message language mode ctx provider
    have h0 : ∀ p : String, ([] : List String).count p ≤ 1 := by simp
    have h1 : ∀ p : String, (["groq"] : List String).count p ≤ 1 := by
      intro p
      by_cases h : p = "groq" <;> simp_all [List.count_cons]
    have h2 : ∀ p : String, (["gemini"] : List String).count p ≤ 1 := by
      intro p
      by_cases h : p = "gemini" <;> simp_all [List.count_cons]
    have h3 : ∀ p : String, (["groq", "gemini"] : List String).count p ≤ 1 := by
      intro p
      by_cases ha : p = "groq" <;> by_cases hb : p = "gemini" <;>
        simp_all [List.count_cons]
    rcases groq with _ | og
    · rcases gemini with _ | oge
      · exact ⟨h0 provider, by simp [chat, chatFallbackGemini], by simp [chat, chatFallbackGemini]⟩
      · rcases oge with m | er <;>
          exact ⟨h2 provider, by simp [chat, chatFallbackGemini, chat_with_gemini], by simp⟩
    · rcases og with m | er
      · exact ⟨h1 provider, by simp, by simp [chat, chat_with_groq]⟩
      · rcases gemini with _ | oge
        · exact ⟨h1 provider, by simp, by simp [chat, chat_with_groq, chatFallbackGemini]⟩
        · rcases oge with m2 | er2 <;>
            exact ⟨h3 provider, by simp, by simp⟩

/-- C2 witness: the fallback and total-failure behaviours at concrete
provider outcomes. -/
theorem chat_fallback_matches_claim_witness :
    ((chat (some (.fail "boom")) (some (.ok "hi")) "hello" "en" true []).1.success = true
      ∧ (chat (some (.fail "boom")) (some (.ok "hi")) "hello" "en" true []).1.model_used
          = some "gemini-1.5-flash")
    ∧ ((chat (some (.fail "boom")) (some (.fail "down")) "hello" "en" true []).1.success = false
      ∧ ∃ err, (chat (some (.fail "boom")) (some (.fail "down")) "hello" "en" true []).1.error
          = some err ∧ err ≠ "")
    ∧ (some (ProviderOutcome.fail "boom") : Option ProviderOutcome) ≠ none := by
  refine ⟨chat_fallback_matches_claim.1 "boom" "hi" "hello" "en" true [], ?_, ?_⟩
  · exact chat_fallback_matches_claim.2.1 (some (.fail "boom")) (some (.fail "down"))
      "hello" "en" true []
      (fun m h => ProviderOutcome.noConfusion (Option.some.inj h))
      (fun m h => ProviderOutcome.noConfusion (Option.some.inj h))
  · exact (chat_fallback_matches_claim.2.2 (some (.fail "boom")) (some (.ok "hi"))
      "hello" "en" true [] "groq").2.1 (by decide)

/-- C6 counterexample: at locale "fr" the system prompt composed by the chat
operation is the English base prompt followed by the Bengali same-language
directive, not the English directive the claim announces. -/
theorem chat_locale_fr_directive_counterexample :
    chat_system_prompt "fr" true [] = medical_system_prompt_en ++ bn_language_directive
    ∧ chat_system_prompt "fr" true [] ≠ medical_system_prompt_en ++ en_language_directive := by
  refine ⟨rfl, ?_⟩
  intro h
  exact absurd (congrArg String.length h) (by decide)

/-- C6 amended: for every locale other than "en" and "bn", the base medical
system prompt is selected as for "en" (the English prompt), but the appended
same-language directive is the Bengali one rather than the English one; the
locale value itself is echoed back unchanged by the chat operation whenever
it is not empty and not "auto" (those two trigger auto-detection instead). -/
theorem chat_locale_fallback_amended (language : String)
    (hen : language ≠ "en") (hbn : language ≠ "bn") :
    get_system_prompt language true = get_system_prompt "en" true
    ∧ chat_system_prompt language true [] = get_system_prompt "en" true ++ bn_language_directive
    ∧ (language ≠ "" → language ≠ "auto" →
        ∀ groq gemini message mode ctx,
          (chat groq gemini message language mode ctx).1.language = some language) := by
  have hbase : get_system_prompt language true = get_system_prompt "en" true := by
    unfold get_system_prompt
    simp [hbn]
  refine ⟨hbase, ?_, ?_⟩
  · unfold chat_system_prompt
    simp [hen, hbase]
  · intro h1 h2 groq gemini message mode ctx
    have hlang : (if language = "" ∨ language = "auto"
        then detect_language message else language) = language := by
      rw [if_neg]
      simp [h1, h2]
    simp only [chat, hlang]
    rcases groq with _ | og
    · rcases gemini with _ | oge
      · rfl
      · rcases oge with m | er <;> rfl
    · rcases og with m | er
      · rfl
      · rcases gemini with _ | oge
        · rfl
        · rcases oge with m2 | er2 <;> rfl

/-- C6 witness: the amended behaviour at the concrete locale "fr". -/
theorem chat_locale_fallback_amended_witness :
    get_system_prompt "fr" true = get_system_prompt "en" true
    ∧ (chat (some (.ok "hi")) none "hello" "fr" true []).1.language = some "fr" := by
  refine ⟨(chat_locale_fallback_amended "fr" (by decide) (by decide)).1, ?_⟩
  exact (chat_locale_fallback_amended "fr" (by decide) (by decide)).2.2
    (by decide) (by decide) (some (.ok "hi")) none "hello" true []

end MySahara
